import Mathlib

/-!
# Verification of the AI--Todoist token lifecycle and task-creation core

Shallow embedding of the Python sources under `src/app/` of the
SimulatorML/AI--Todoist repository:

* `database.py` — `TokenRateLimiter` (attempt rate limiting over an
  append-only attempt log) and `UserTokenStorage` (one Todoist token per
  Telegram user, upsert semantics).
* `todoist_client.py` — `TodoistClient` (HTTP adapter for task creation
  and the project-list credential probe, with its error mapping).
* `main.py` — the orchestrator's request construction (idempotency key).

SQLite tables become lists of rows, timestamps become integer Unix
seconds, and each fallible storage call takes an explicit `fail : Bool`
oracle describing whether the storage medium raises during that call;
the `try/except` structure of the Python code then determines whether
the failure is swallowed or propagated (`Except` in the result type).
-/

namespace Todoist

/-! ## Data model (`models.py`, SQLite schemas in `database.py`) -/

/-- `models.Due`: structured due-date information echoed by the API. -/
structure Due where
  date : String
  string : String
  lang : String
  isRecurring : Bool
  datetime : Option String
  timezone : Option String
deriving Repr, DecidableEq

/-- `models.TodoistTask`: request model for creating a task
(`content`, optional project/due hints, `priority` defaulting to 2,
optional idempotency `request_id`). -/
structure TodoistTask where
  content : String
  project_id : Option String := none
  due_date : Option String := none
  due_string : Option String := none
  priority : Int := 2
  request_id : Option String := none
deriving Repr, DecidableEq

/-- `models.TodoistTaskResponse`: the fields the client extracts from a
2xx task-creation response (`due` is optional, all others required). -/
structure TodoistTaskResponse where
  id : String
  content : String
  project_id : String
  priority : Int
  due : Option Due
  url : String
deriving Repr, DecidableEq

/-- One row of the `token_attempts` table
(`telegram_user_id INTEGER, attempt_time TIMESTAMP, success BOOLEAN`).
`time` is the row's `attempt_time` as Unix seconds. -/
structure AttemptRow where
  userId : Int
  time : Int
  success : Bool
deriving Repr, DecidableEq

/-- The `token_attempts` table: an append-only list of rows. -/
abbrev AttemptLog := List AttemptRow

/-- One row of the `user_tokens` table
(`telegram_user_id INTEGER PRIMARY KEY, todoist_token TEXT NOT NULL,
created_at, updated_at`). -/
structure TokenRow where
  userId : Int
  token : String
  createdAt : Int
  updatedAt : Int
deriving Repr, DecidableEq

/-- The `user_tokens` table as a list of rows; the `PRIMARY KEY`
constraint of the schema is the `Nodup` predicate on the key column
(see `TokenStore.keysNodup`). -/
abbrev TokenStore := List TokenRow

/-- Error raised by the storage medium (aiosqlite) when it fails; the
Python code either logs-and-swallows it or re-raises it depending on the
operation. -/
inductive DbError where
  | storageUnavailable
deriving Repr, DecidableEq

/-! ## `TokenRateLimiter` (`database.py` lines 13–159)

Embedded with the limiter's two configuration fields as explicit
arguments (`maxAttempts`, `timeoutMinutes`); `now` is the storage
medium's `CURRENT_TIMESTAMP` in Unix seconds, and `fail` tells whether
the SQLite call raises. -/

/-- The SQL window predicate of `get_recent_attempts`:
`(strftime('%s', CURRENT_TIMESTAMP) - strftime('%s', attempt_time)) / 60 <= minutes`
(SQLite integer division of the elapsed seconds). -/
def inWindow (now : Int) (minutes : Int) (r : AttemptRow) : Bool :=
  (now - r.time) / 60 ≤ minutes

/-- `TokenRateLimiter.get_recent_attempts`: `SELECT COUNT(*)` of the
identity's rows inside the trailing window; the `except` branch returns
`0` when the storage medium fails. -/
def getRecentAttempts (log : AttemptLog) (userId : Int) (minutes : Int)
    (now : Int) (fail : Bool) : Int :=
  if fail then 0
  else ((log.filter fun r => r.userId == userId && inWindow now minutes r).length : Int)

/-- The lockout notice of `can_attempt` (its first return branch). -/
def lockoutMsg (maxAttempts timeoutMinutes : Int) : String :=
  "❌ Превышено максимальное количество попыток ввода токена (" ++
    toString maxAttempts ++ ").\n\n⏰ Попробуйте снова через " ++
    toString timeoutMinutes ++ " минут."

/-- The remaining-count warning of `can_attempt` (its second return
branch). -/
def warningMsg (remaining : Int) : String :=
  "⚠️ Осталось попыток: " ++ toString remaining

/-- `TokenRateLimiter.can_attempt`: counts recent attempts, rejects at
the threshold with a lockout notice, warns when at most 2 attempts
remain, and otherwise allows silently. -/
def canAttempt (maxAttempts timeoutMinutes : Int) (log : AttemptLog)
    (userId : Int) (now : Int) (fail : Bool) : Bool × String :=
  let recent := getRecentAttempts log userId timeoutMinutes now fail
  if recent ≥ maxAttempts then
    (false, lockoutMsg maxAttempts timeoutMinutes)
  else
    let remaining := maxAttempts - recent
    if remaining ≤ 2 then (true, warningMsg remaining)
    else (true, "")

/-- `TokenRateLimiter.record_token_attempt`: `INSERT` of one attempt
row; the `except` branch only logs, so a storage failure leaves the
table unchanged and is NOT propagated (the result is `Except.ok` even
when `fail` is true). -/
def recordTokenAttempt (log : AttemptLog) (userId : Int) (success : Bool)
    (now : Int) (fail : Bool) : Except DbError AttemptLog :=
  if fail then .ok log
  else .ok (log ++ [⟨userId, now, success⟩])

/-- The SQL deletion predicate of `cleanup_old_attempts`:
`telegram_user_id = ? AND (success = FALSE OR JULIANDAY(now) - JULIANDAY(attempt_time) > days)`;
the Julian-day difference exceeds `days` exactly when the elapsed
seconds exceed `days * 86400`. -/
def cleanupDeletes (userId : Int) (days : Int) (now : Int) (r : AttemptRow) : Bool :=
  r.userId == userId && (!r.success || now - r.time > days * 86400)

/-- `TokenRateLimiter.cleanup_old_attempts` (default `days = 1`):
deletes every failed attempt of the identity unconditionally and every
attempt of the identity older than `days`; storage failure is swallowed. -/
def cleanupOldAttempts (log : AttemptLog) (userId : Int) (days : Int)
    (now : Int) (fail : Bool) : AttemptLog :=
  if fail then log
  else log.filter fun r => !cleanupDeletes userId days now r

/-- `TokenRateLimiter.record_attempt`: records the attempt and, only
when it was successful, additionally runs the cleanup sweep (with its
default retention of 1 day). -/
def recordAttempt (log : AttemptLog) (userId : Int) (success : Bool)
    (now : Int) (fail : Bool) : Except DbError AttemptLog := do
  let log' ← recordTokenAttempt log userId success now fail
  if success then
    return cleanupOldAttempts log' userId 1 now fail
  else
    return log'

/-! ## `UserTokenStorage` (`database.py` lines 161–292) -/

/-- `UserTokenStorage.store_token`: SQL upsert
(`INSERT ... ON CONFLICT(telegram_user_id) DO UPDATE SET todoist_token = excluded.todoist_token, updated_at = CURRENT_TIMESTAMP`).
If a row with the key exists it is updated in place (keeping
`created_at`), otherwise a fresh row is inserted; the `except` branch
RE-RAISES, so a storage failure propagates as `Except.error`. -/
def storeToken (st : TokenStore) (userId : Int) (token : String)
    (now : Int) (fail : Bool) : Except DbError TokenStore :=
  if fail then .error .storageUnavailable
  else if st.any fun r => r.userId == userId then
    .ok (st.map fun r => if r.userId == userId then
          { r with token := token, updatedAt := now } else r)
  else
    .ok (st ++ [⟨userId, token, now, now⟩])

/-- The `SELECT todoist_token ... WHERE telegram_user_id = ?` lookup:
first matching row's token, if any. -/
def lookupToken (st : TokenStore) (userId : Int) : Option String :=
  (st.find? fun r => r.userId == userId).map (·.token)

/-- `UserTokenStorage.get_token`: returns the stored token or `none`;
the `except` branch returns `None`, so a storage failure is swallowed
and reported as absence (`Except.ok none`), never as an error. -/
def getToken (st : TokenStore) (userId : Int) (fail : Bool) :
    Except DbError (Option String) :=
  if fail then .ok none
  else .ok (lookupToken st userId)

/-- `UserTokenStorage.has_token`: existence check; storage failure is
swallowed as `false`. -/
def hasToken (st : TokenStore) (userId : Int) (fail : Bool) : Bool :=
  if fail then false
  else st.any fun r => r.userId == userId

/-- `UserTokenStorage.remove_token`: `DELETE ... WHERE telegram_user_id = ?`,
returning `rowcount > 0`; storage failure is swallowed as `false`. -/
def removeToken (st : TokenStore) (userId : Int) (fail : Bool) :
    Bool × TokenStore :=
  if fail then (false, st)
  else (st.any fun r => r.userId == userId, st.filter fun r => !(r.userId == userId))

/-- The key column of the store; the schema's `PRIMARY KEY` constraint
is `(keys st).Nodup`. -/
def keys (st : TokenStore) : List Int := st.map (·.userId)

/-! ## `TodoistClient` (`todoist_client.py`)

The HTTP round trip is abstracted by an outcome value: the request
either times out, fails at the transport level before any response
(e.g. a connection error), or produces a response with a status code
and a parsed JSON body. `raise_for_status` raises `HTTPStatusError`
for every non-2xx status. -/

/-- A JSON scalar appearing in the request payload. -/
inductive JsonVal where
  | str (s : String)
  | num (n : Int)
deriving Repr, DecidableEq

/-- The fields of a parsed 2xx task-creation response body; a `none`
field is one the body is missing (Python raises `KeyError` on access,
except for `due`, read with `.get`). -/
structure RespBody where
  id : Option String
  content : Option String
  project_id : Option String
  priority : Option Int
  due : Option Due
  url : Option String
deriving Repr, DecidableEq

/-- Outcome of the `client.post(.../tasks, ...)` round trip. -/
inductive HttpOutcome where
  | timeout
  | connectError
  | response (status : Nat) (body : RespBody)
deriving Repr, DecidableEq

/-- Outcome of the `client.get(.../projects, ...)` round trip; a
project entry is kept opaque. -/
inductive ProjectsOutcome where
  | timeout
  | connectError
  | response (status : Nat) (projects : List String)
deriving Repr, DecidableEq

/-- The closed set of errors the client raises: each constructor is one
of the distinct `ValueError` messages of `todoist_client.py`.

* `unavailableTimeout` — "Todoist service is currently unavailable (timeout)";
* `invalidToken` — "Invalid Todoist API token" (HTTP 401);
* `accessDenied` — "Access denied to Todoist API" (HTTP 403);
* `apiError code` — "Todoist API error: {code}" (any other non-2xx);
* `failedToCreate` — "Failed to create task in Todoist" (the generic
  `except Exception` branch of `create_task`: a 2xx body missing a
  required field, or any other transport exception — the
  `MalformedResponse` bucket of the spec's taxonomy);
* `failedToFetchProjects` — "Failed to fetch projects from Todoist"
  (the single `except Exception` branch of `get_projects`). -/
inductive ClientError where
  | unavailableTimeout
  | invalidToken
  | accessDenied
  | apiError (code : Nat)
  | failedToCreate
  | failedToFetchProjects
deriving Repr, DecidableEq

/-- The client's own state set up by `TodoistClient.__init__`:
the token, the base URL, and the mutable `self.headers` dict
(a dict is an association list with unique keys). -/
structure TodoistClient where
  token : String
  base_url : String
  headers : List (String × String)
deriving Repr, DecidableEq

/-- `TodoistClient.__init__(token)`. -/
def TodoistClient.init (token : String) : TodoistClient where
  token := token
  base_url := "https://api.todoist.com/rest/v2"
  headers := [("Authorization", "Bearer " ++ token),
              ("Content-Type", "application/json")]

/-- Python dict assignment `d[k] = v`: overwrite the existing entry or
append a new one. -/
def setHeader (hs : List (String × String)) (k v : String) :
    List (String × String) :=
  if hs.any fun p => p.1 == k then
    hs.map fun p => if p.1 == k then (k, v) else p
  else hs ++ [(k, v)]

/-- Python truthiness of an `Optional[str]`: `None` and `""` are falsy. -/
def truthy : Option String → Bool
  | none => false
  | some s => !(s == "")

/-- The `task_data` payload built by `create_task` (lines 39–50):
`content` and `priority` always, the optional fields only when truthy. -/
def taskPayload (task : TodoistTask) : List (String × JsonVal) :=
  [("content", .str task.content), ("priority", .num task.priority)] ++
  (match task.project_id with
    | some p => if p == "" then [] else [("project_id", .str p)]
    | none => []) ++
  (match task.due_date with
    | some d => if d == "" then [] else [("due_date", .str d)]
    | none => []) ++
  (match task.due_string with
    | some d => if d == "" then [] else [("due_string", .str d)]
    | none => [])

/-- Lines 51–53 of `create_task`: when the task carries a truthy
`request_id`, the idempotency header is written into `self.headers`
(a mutation of the client value that persists after the call). -/
def applyRequestId (c : TodoistClient) (task : TodoistTask) : TodoistClient :=
  match task.request_id with
  | some r => if r == "" then c else { c with headers := setHeader c.headers "X-Request-Id" r }
  | none => c

/-- Field extraction of lines 67–74: the response is built from
`id`, `content`, `project_id`, `priority`, `url` (all required —
a missing one raises `KeyError`) and the optional `due`. -/
def parseTaskResponse (b : RespBody) : Option TodoistTaskResponse :=
  match b.id, b.content, b.project_id, b.priority, b.url with
  | some i, some c, some p, some pr, some u =>
      some ⟨i, c, p, pr, b.due, u⟩
  | _, _, _, _, _ => none

/-- httpx `Response.raise_for_status` raises exactly on non-2xx. -/
def is2xx (status : Nat) : Bool := 200 ≤ status && status < 300

/-- `TodoistClient.create_task`: returns both the call's result and the
client value after the call (whose `headers` may have been mutated by
`applyRequestId`). The `except` chain of lines 76–89 maps the outcome:
timeout → `unavailableTimeout`; `HTTPStatusError` → 401/403/other
status; any other exception (missing required field in a 2xx body, or a
transport error) → `failedToCreate`. -/
def createTask (c : TodoistClient) (task : TodoistTask)
    (outcome : HttpOutcome) :
    Except ClientError TodoistTaskResponse × TodoistClient :=
  let c' := applyRequestId c task
  let result : Except ClientError TodoistTaskResponse :=
    match outcome with
    | .timeout => .error .unavailableTimeout
    | .connectError => .error .failedToCreate
    | .response status body =>
        if is2xx status then
          match parseTaskResponse body with
          | some r => .ok r
          | none => .error .failedToCreate
        else if status == 401 then .error .invalidToken
        else if status == 403 then .error .accessDenied
        else .error (.apiError status)
  (result, c')

/-- `TodoistClient.get_projects`: one `try` with a single
`except Exception` branch, so EVERY failure — timeout, connection
error, or `HTTPStatusError` of any status — becomes the same
`ValueError("Failed to fetch projects from Todoist")`. -/
def getProjects (c : TodoistClient) (outcome : ProjectsOutcome) :
    Except ClientError (List String) × TodoistClient :=
  let result : Except ClientError (List String) :=
    match outcome with
    | .timeout => .error .failedToFetchProjects
    | .connectError => .error .failedToFetchProjects
    | .response status projects =>
        if is2xx status then .ok projects
        else .error .failedToFetchProjects
  (result, c)

/-! ## Orchestrator request construction (`main.py` lines 140–143) -/

/-- The idempotency key `f"tg_{user_id}_{message.message_id}"`. -/
def makeRequestId (userId messageId : Int) : String :=
  "tg_" ++ toString userId ++ "_" ++ toString messageId

/-- The task value `handle_message` builds for an inbound text:
content is the message text, priority 3, and the deterministic
idempotency key derived from the user id and the message id. -/
def buildTask (userId messageId : Int) (text : String) : TodoistTask where
  content := text
  priority := 3
  request_id := some (makeRequestId userId messageId)

/-! ## Helper lemmas -/

/-- A string with a nonempty left part stays nonempty under append. -/
theorem append_ne_empty (s t : String) (h : s.data ≠ []) : s ++ t ≠ "" := by
  intro he
  apply h
  have h2 : s.data ++ t.data = [] := String.ext_iff.mp he
  exact (List.append_eq_nil.mp h2).1

/-- The lockout notice is never the empty string. -/
theorem lockoutMsg_ne_empty (m t : Int) : lockoutMsg m t ≠ "" := by
  unfold lockoutMsg
  apply append_ne_empty
  simp only [String.data_append]
  apply List.append_ne_nil_of_left_ne_nil
  apply List.append_ne_nil_of_left_ne_nil
  apply List.append_ne_nil_of_left_ne_nil
  decide

/-- The remaining-count warning is never the empty string. -/
theorem warningMsg_ne_empty (remaining : Int) : warningMsg remaining ≠ "" :=
  append_ne_empty _ _ (by decide)

/-! ## Claims -/

/-- C1: for every identity and recorded attempt history, `can_attempt`
allows whenever the number of attempts (successful and failed alike)
counted in the trailing `timeout_minutes` window is strictly below
`max_attempts`; rejects with a non-empty lockout advisory whenever that
count reaches `max_attempts`; and, when allowing, returns an empty
advisory if more than 2 attempts remain and a non-empty remaining-count
warning if 2 or fewer remain. -/
theorem canAttempt_spec (m t : Int) (log : AttemptLog) (u now : Int) :
    (getRecentAttempts log u t now false < m →
      (canAttempt m t log u now false).1 = true) ∧
    (m ≤ getRecentAttempts log u t now false →
      (canAttempt m t log u now false).1 = false ∧
      (canAttempt m t log u now false).2 ≠ "") ∧
    (getRecentAttempts log u t now false < m →
      2 < m - getRecentAttempts log u t now false →
      (canAttempt m t log u now false).2 = "") ∧
    (getRecentAttempts log u t now false < m →
      m - getRecentAttempts log u t now false ≤ 2 →
      (canAttempt m t log u now false).2 =
        warningMsg (m - getRecentAttempts log u t now false) ∧
      (canAttempt m t log u now false).2 ≠ "") := by
  simp only [canAttempt]
  refine ⟨?_, ?_, ?_, ?_⟩
  · intro h
    rw [if_neg (by omega)]
    split <;> rfl
  · intro h
    rw [if_pos (by omega)]
    exact ⟨rfl, lockoutMsg_ne_empty m t⟩
  · intro h h2
    rw [if_neg (by omega), if_neg (by omega)]
  · intro h h2
    rw [if_neg (by omega), if_pos (by omega)]
    exact ⟨rfl, warningMsg_ne_empty _⟩

/-- Witness for C1 at the deployed configuration
(`max_attempts = 4`, `timeout_minutes = 2`): an empty history is
comfortably open with an empty advisory, a history of 2 recent attempts
is allowed with the non-empty remaining-count warning, and a history of
4 recent attempts is rejected with a non-empty lockout advisory. -/
theorem canAttempt_spec_witness :
    ((canAttempt 4 2 [] 7 1000 false).1 = true ∧
      (canAttempt 4 2 [] 7 1000 false).2 = "") ∧
    ((canAttempt 4 2 [⟨7, 990, false⟩, ⟨7, 995, true⟩] 7 1000 false).1 = true ∧
      (canAttempt 4 2 [⟨7, 990, false⟩, ⟨7, 995, true⟩] 7 1000 false).2 =
        warningMsg 2 ∧
      (canAttempt 4 2 [⟨7, 990, false⟩, ⟨7, 995, true⟩] 7 1000 false).2 ≠ "") ∧
    ((canAttempt 4 2 [⟨7, 985, false⟩, ⟨7, 990, false⟩, ⟨7, 995, false⟩,
        ⟨7, 999, false⟩] 7 1000 false).1 = false ∧
      (canAttempt 4 2 [⟨7, 985, false⟩, ⟨7, 990, false⟩, ⟨7, 995, false⟩,
        ⟨7, 999, false⟩] 7 1000 false).2 ≠ "") :=
  ⟨⟨(canAttempt_spec 4 2 [] 7 1000).1 (by decide),
    (canAttempt_spec 4 2 [] 7 1000).2.2.1 (by decide) (by decide)⟩,
   ⟨(canAttempt_spec 4 2 [⟨7, 990, false⟩, ⟨7, 995, true⟩] 7 1000).1 (by decide),
    ((canAttempt_spec 4 2 [⟨7, 990, false⟩, ⟨7, 995, true⟩] 7 1000).2.2.2
      (by decide) (by decide)).1,
    ((canAttempt_spec 4 2 [⟨7, 990, false⟩, ⟨7, 995, true⟩] 7 1000).2.2.2
      (by decide) (by decide)).2⟩,
   (canAttempt_spec 4 2 [⟨7, 985, false⟩, ⟨7, 990, false⟩, ⟨7, 995, false⟩,
      ⟨7, 999, false⟩] 7 1000).2.1 (by decide)⟩

/-- C10: when the storage read fails, `get_recent_attempts` reports 0
and `can_attempt` therefore allows with an empty advisory — the rate
limiter fails open on storage errors (for any threshold above the
warning band, which covers both configured instances, 5 and 4). -/
theorem rateLimiter_fails_open (m t : Int) (log : AttemptLog) (u now : Int)
    (h : 2 < m) :
    getRecentAttempts log u t now true = 0 ∧
    canAttempt m t log u now true = (true, "") := by
  refine ⟨rfl, ?_⟩
  have h0 : getRecentAttempts log u t now true = 0 := rfl
  simp only [canAttempt, h0]
  rw [if_neg (by omega), if_neg (by omega)]

/-- Witness for C10: the deployed limiter (`max_attempts = 4`) with a
history that would normally lock the user out still allows with an
empty advisory when the storage read fails. -/
theorem rateLimiter_fails_open_witness :
    getRecentAttempts [⟨7, 985, false⟩, ⟨7, 990, false⟩, ⟨7, 995, false⟩,
        ⟨7, 999, false⟩] 7 2 1000 true = 0 ∧
    canAttempt 4 2 [⟨7, 985, false⟩, ⟨7, 990, false⟩, ⟨7, 995, false⟩,
        ⟨7, 999, false⟩] 7 1000 true = (true, "") :=
  rateLimiter_fails_open 4 2 _ 7 1000 (by decide)

/-- C5 (code at the failing input): when the storage medium fails,
the privileged read `get_token` returns `ok none` (absence, no error)
and `record_token_attempt` returns `ok` with the log unchanged (silent
success), while `store_token` alone re-raises. The spec requires all
three to propagate the failure. -/
theorem storage_error_swallowed :
    getToken [⟨42, "tok", 0, 0⟩] 42 true = .ok none ∧
    recordTokenAttempt [] 42 false 100 true = .ok [] ∧
    storeToken [] 42 "tok" 100 true = .error .storageUnavailable :=
  ⟨rfl, rfl, rfl⟩

/-- C7: the idempotency key attached by the orchestrator is a
deterministic pure function of the pair (user identity, message
identity): two request constructions for the same pair — whatever the
message text — carry the identical key `tg_{user}_{message}`, with no
random component. -/
theorem idempotency_key_deterministic (u m : Int) (text1 text2 : String) :
    (buildTask u m text1).request_id = (buildTask u m text2).request_id ∧
    (buildTask u m text1).request_id = some (makeRequestId u m) :=
  ⟨rfl, rfl⟩

/-- The update function of the upsert's `DO UPDATE` branch preserves
the key column. -/
theorem upsert_update_preserves_key (uid : Int) (tok : String) (now : Int)
    (r : TokenRow) :
    ((if r.userId == uid then { r with token := tok, updatedAt := now }
      else r) : TokenRow).userId = r.userId := by
  split <;> rfl

/-- `find?` skips a prefix on which it finds nothing. -/
theorem find?_append_none {α : Type} (p : α → Bool) (l₁ l₂ : List α)
    (h : List.find? p l₁ = none) :
    List.find? p (l₁ ++ l₂) = List.find? p l₂ := by
  induction l₁ with
  | nil => rfl
  | cons a l ih =>
    simp only [List.find?] at h ⊢
    cases hp : p a with
    | true => simp [hp] at h
    | false => simp only [hp] at h ⊢; exact ih h

/-- After a successful upsert the store has a first row keyed by the
identity, carrying the new token. -/
theorem lookup_after_upsert (st : TokenStore) (uid : Int) (tok : String)
    (now : Int) (st' : TokenStore)
    (h : storeToken st uid tok now false = .ok st') :
    lookupToken st' uid = some tok := by
  simp only [storeToken, if_neg Bool.false_ne_true] at h
  by_cases hany : st.any (fun r => r.userId == uid)
  · rw [if_pos hany] at h
    obtain rfl : (st.map fun r => if r.userId == uid then
        { r with token := tok, updatedAt := now } else r) = st' :=
      Except.ok.inj h
    simp only [lookupToken, List.find?_map]
    have hpf : ((fun r : TokenRow => r.userId == uid) ∘
        (fun r => if r.userId == uid then
          { r with token := tok, updatedAt := now } else r)) =
        fun r => r.userId == uid := by
      funext r
      simp only [Function.comp_apply, upsert_update_preserves_key]
    rw [hpf]
    obtain ⟨x, hx, hpx⟩ := List.any_eq_true.mp hany
    have hsome : (st.find? fun r => r.userId == uid).isSome :=
      List.find?_isSome.mpr ⟨x, hx, hpx⟩
    obtain ⟨r, hr⟩ := Option.isSome_iff_exists.mp hsome
    have hpr : (r.userId == uid) = true := by
      have h' := List.find?_some hr
      exact h'
    rw [hr]
    have heq : r.userId = uid := by simpa using hpr
    simp [heq]
  · rw [if_neg hany] at h
    obtain rfl : st ++ [(⟨uid, tok, now, now⟩ : TokenRow)] = st' :=
      Except.ok.inj h
    have hnone : st.find? (fun r => r.userId == uid) = none := by
      apply List.find?_eq_none.mpr
      intro x hx
      simp only [List.any_eq_true, not_exists] at hany
      exact fun hp => hany x ⟨hx, hp⟩
    simp only [lookupToken]
    rw [find?_append_none _ _ _ hnone]
    simp [List.find?]

/-- C2: for every identity and token, after `store_token` a subsequent
`get_token` returns exactly that token, whatever was stored before
(last-write-wins); and the upsert preserves the `PRIMARY KEY` invariant
that the store holds at most one row per identity. -/
theorem upsert_last_write_wins (st : TokenStore) (uid : Int) (tok : String)
    (now : Int) :
    ∃ st', storeToken st uid tok now false = .ok st' ∧
      getToken st' uid false = .ok (some tok) ∧
      ((keys st).Nodup → (keys st').Nodup) := by
  by_cases hany : st.any (fun r => r.userId == uid)
  · have hstore : storeToken st uid tok now false =
        .ok (st.map fun r => if r.userId == uid then
          { r with token := tok, updatedAt := now } else r) := by
      simp [storeToken, hany]
    refine ⟨_, hstore, ?_, ?_⟩
    · simp only [getToken, if_neg Bool.false_ne_true]
      rw [lookup_after_upsert st uid tok now _ hstore]
    · intro hnd
      have hkeys : keys (st.map fun r => if r.userId == uid then
          { r with token := tok, updatedAt := now } else r) = keys st := by
        simp only [keys, List.map_map]
        apply List.map_congr_left
        intro r _
        exact upsert_update_preserves_key uid tok now r
      rw [hkeys]
      exact hnd
  · have hstore : storeToken st uid tok now false =
        .ok (st ++ [⟨uid, tok, now, now⟩]) := by
      simp [storeToken, hany]
    refine ⟨_, hstore, ?_, ?_⟩
    · simp only [getToken, if_neg Bool.false_ne_true]
      rw [lookup_after_upsert st uid tok now _ hstore]
    · intro hnd
      have hnot : uid ∉ keys st := by
        simp only [keys, List.mem_map, not_exists]
        rintro r ⟨hr, rfl⟩
        simp only [List.any_eq_true, not_exists] at hany
        exact hany r ⟨hr, by simp⟩
      have hk : keys (st ++ [⟨uid, tok, now, now⟩]) = keys st ++ [uid] := by
        simp [keys]
      rw [hk, List.nodup_append]
      refine ⟨hnd, List.nodup_singleton _, ?_⟩
      intro x hx hmem
      rw [List.mem_singleton] at hmem
      subst hmem
      exact hnot hx

/-- Witness for C2: overwriting a previously stored token for identity
42 yields that token on the next read and keeps the key column
duplicate-free. -/
theorem upsert_last_write_wins_witness :
    ∃ st', storeToken [⟨42, "old", 0, 0⟩, ⟨7, "other", 0, 0⟩] 42 "new" 5 false
        = .ok st' ∧
      getToken st' 42 false = .ok (some "new") ∧
      ((keys [⟨42, "old", 0, 0⟩, ⟨7, "other", 0, 0⟩]).Nodup →
        (keys st').Nodup) :=
  upsert_last_write_wins [⟨42, "old", 0, 0⟩, ⟨7, "other", 0, 0⟩] 42 "new" 5

/-- C9: `remove_token` on an identity with no stored token returns
`false` and leaves the store unchanged (not an error); after an upsert
for the identity, `remove_token` returns `true` and a subsequent
`get_token` returns absent. -/
theorem remove_token_spec (st : TokenStore) (uid : Int) (tok : String)
    (now : Int) :
    (lookupToken st uid = none → removeToken st uid false = (false, st)) ∧
    (∀ st', storeToken st uid tok now false = .ok st' →
      (removeToken st' uid false).1 = true ∧
      getToken (removeToken st' uid false).2 uid false = .ok none) := by
  constructor
  · intro h
    have hfind : st.find? (fun r => r.userId == uid) = none := by
      cases hf : st.find? fun r => r.userId == uid with
      | none => rfl
      | some r => simp [lookupToken, hf] at h
    have hall : ∀ r ∈ st, ¬ (r.userId == uid) = true :=
      List.find?_eq_none.mp hfind
    have h1 : st.any (fun r => r.userId == uid) = false := by
      rw [Bool.eq_false_iff]
      intro hc
      obtain ⟨r, hr, hpr⟩ := List.any_eq_true.mp hc
      exact hall r hr hpr
    have h2 : (st.filter fun r => !(r.userId == uid)) = st := by
      apply List.filter_eq_self.mpr
      intro r hr
      simp [Bool.eq_false_iff.mpr (hall r hr)]
    simp only [removeToken, if_neg Bool.false_ne_true, h1, h2]
  · intro st' hst
    have hlook := lookup_after_upsert st uid tok now st' hst
    have hsome : (st'.find? fun r => r.userId == uid).isSome := by
      simp only [lookupToken] at hlook
      cases hf : st'.find? fun r => r.userId == uid with
      | none => rw [hf] at hlook; simp at hlook
      | some r => rfl
    obtain ⟨r, hr⟩ := Option.isSome_iff_exists.mp hsome
    have hpr : (r.userId == uid) = true := by
      have h' := List.find?_some hr
      exact h'
    constructor
    · simp only [removeToken, if_neg Bool.false_ne_true]
      exact List.any_eq_true.mpr
        ⟨r, List.mem_of_find?_eq_some hr, hpr⟩
    · simp only [removeToken, if_neg Bool.false_ne_true, getToken,
        lookupToken]
      have hnone : ((st'.filter fun r => !(r.userId == uid)).find?
          fun r => r.userId == uid) = none := by
        apply List.find?_eq_none.mpr
        intro x hx
        have := (List.mem_filter.mp hx).2
        simp only [Bool.not_eq_eq_eq_not, Bool.not_true] at this
        simp [this]
      rw [hnone]
      rfl

/-- Witness for C9: identity 42 with an empty store — removal reports
`false`; after storing a token, removal reports `true` and the next
read is absent. -/
theorem remove_token_spec_witness :
    (removeToken [] 42 false = (false, [])) ∧
    (removeToken [⟨42, "tok", 5, 5⟩] 42 false).1 = true ∧
    getToken (removeToken [⟨42, "tok", 5, 5⟩] 42 false).2 42 false =
      .ok none :=
  ⟨(remove_token_spec [] 42 "tok" 5).1 rfl,
   (remove_token_spec [] 42 "tok" 5).2 [⟨42, "tok", 5, 5⟩] rfl⟩

/-- C3: `create_task` maps every failure into the closed taxonomy and
never surfaces a raw transport exception: a timeout yields the
unavailable error, HTTP 401 the invalid-credential error, HTTP 403 the
access-denied error, any other non-2xx status the remote-error value
carrying that status code, and a 2xx response whose body is missing a
required field yields the malformed-response bucket
(`ValueError("Failed to create task in Todoist")`). -/
theorem createTask_error_taxonomy (c : TodoistClient) (task : TodoistTask)
    (status : Nat) (body : RespBody) :
    ((createTask c task .timeout).1 = .error .unavailableTimeout) ∧
    ((createTask c task (.response 401 body)).1 = .error .invalidToken) ∧
    ((createTask c task (.response 403 body)).1 = .error .accessDenied) ∧
    (is2xx status = false → status ≠ 401 → status ≠ 403 →
      (createTask c task (.response status body)).1 =
        .error (.apiError status)) ∧
    (is2xx status = true → parseTaskResponse body = none →
      (createTask c task (.response status body)).1 =
        .error .failedToCreate) := by
  refine ⟨rfl, rfl, rfl, ?_, ?_⟩
  · intro h h401 h403
    simp [createTask, h, h401, h403]
  · intro h hp
    simp [createTask, h, hp]

/-- Witness for C3: a 500 status maps to the remote error carrying 500,
and a 200 response whose body is missing every required field maps to
the malformed-response error. -/
theorem createTask_error_taxonomy_witness :
    (is2xx 500 = false ∧
      (createTask (TodoistClient.init "t") { content := "x" }
        (.response 500 ⟨none, none, none, none, none, none⟩)).1 =
          .error (.apiError 500)) ∧
    (is2xx 200 = true ∧
      parseTaskResponse ⟨none, none, none, none, none, none⟩ = none ∧
      (createTask (TodoistClient.init "t") { content := "x" }
        (.response 200 ⟨none, none, none, none, none, none⟩)).1 =
          .error .failedToCreate) :=
  ⟨⟨rfl, (createTask_error_taxonomy (TodoistClient.init "t") { content := "x" }
      500 ⟨none, none, none, none, none, none⟩).2.2.2.1 rfl
      (by decide) (by decide)⟩,
   ⟨rfl, rfl, (createTask_error_taxonomy (TodoistClient.init "t")
      { content := "x" } 200 ⟨none, none, none, none, none, none⟩).2.2.2.2
      rfl rfl⟩⟩

/-- C6 fails on the code: `get_projects` has a single
`except Exception` branch, so an HTTP 401, an HTTP 403 and a timeout
all surface the SAME generic error — none of them is distinguishable as
unauthorized, forbidden or unavailable. -/
theorem getProjects_collapses_taxonomy_counterexample :
    (getProjects (TodoistClient.init "tok") (.response 401 [])).1 =
      (getProjects (TodoistClient.init "tok") .timeout).1 ∧
    (getProjects (TodoistClient.init "tok") (.response 403 [])).1 =
      (getProjects (TodoistClient.init "tok") .timeout).1 ∧
    (getProjects (TodoistClient.init "tok") (.response 401 [])).1 =
      .error .failedToFetchProjects ∧
    ClientError.failedToFetchProjects ≠ ClientError.invalidToken ∧
    ClientError.failedToFetchProjects ≠ ClientError.accessDenied ∧
    ClientError.failedToFetchProjects ≠ ClientError.unavailableTimeout :=
  ⟨rfl, rfl, rfl, by decide, by decide, by decide⟩

/-- C6 amended: every failure of the `get_projects` credential probe
surfaces as the single generic fetch-failure error
(`ValueError("Failed to fetch projects from Todoist")`); 401, 403 and
timeout are not distinguishable from one another. -/
theorem getProjects_generic_error (c : TodoistClient) (o : ProjectsOutcome)
    (e : ClientError) (h : (getProjects c o).1 = .error e) :
    e = .failedToFetchProjects := by
  cases o with
  | timeout => exact (Except.error.inj h).symm
  | connectError => exact (Except.error.inj h).symm
  | response s ps =>
    by_cases h2 : is2xx s = true
    · simp [getProjects, h2] at h
    · simp only [getProjects, Bool.not_eq_true] at h
      rw [if_neg (by simp [h2])] at h
      exact (Except.error.inj h).symm

/-- Witness for C6's amended claim: the probe's timeout failure is the
generic fetch-failure error. -/
theorem getProjects_generic_error_witness :
    ∃ e, (getProjects (TodoistClient.init "t") ProjectsOutcome.timeout).1 =
      Except.error e ∧ e = ClientError.failedToFetchProjects :=
  ⟨.failedToFetchProjects, rfl,
    getProjects_generic_error (TodoistClient.init "t") .timeout
      .failedToFetchProjects rfl⟩

/-- C8 fails on the code: `create_task` writes the idempotency header
into `self.headers`, so on a task carrying a `request_id` the client
value after the call differs from the freshly constructed one — the
mutation persists into subsequent calls. -/
theorem createTask_mutates_state_counterexample :
    (createTask (TodoistClient.init "tok") (buildTask 1 2 "Buy milk")
      .timeout).2 ≠ TodoistClient.init "tok" := by
  decide

/-- C8 amended: `create_task` leaves the client's token and base URL
unchanged, and leaves the whole client state unchanged whenever the
task carries no truthy `request_id`; but when the task carries a
non-empty `request_id`, the call writes the `X-Request-Id` header into
the client's header set (a persistent mutation). -/
theorem createTask_state_effect (c : TodoistClient) (task : TodoistTask)
    (o : HttpOutcome) :
    ((createTask c task o).2.token = c.token) ∧
    ((createTask c task o).2.base_url = c.base_url) ∧
    (truthy task.request_id = false → (createTask c task o).2 = c) ∧
    (∀ r, task.request_id = some r → (r == "") = false →
      (createTask c task o).2.headers =
        setHeader c.headers "X-Request-Id" r) := by
  have hstate : (createTask c task o).2 = applyRequestId c task := rfl
  rw [hstate]
  have htok : (applyRequestId c task).token = c.token := by
    cases he : task.request_id with
    | none => simp [applyRequestId, he]
    | some r =>
      by_cases h : (r == "") = true <;> simp [applyRequestId, he, h]
  have hurl : (applyRequestId c task).base_url = c.base_url := by
    cases he : task.request_id with
    | none => simp [applyRequestId, he]
    | some r =>
      by_cases h : (r == "") = true <;> simp [applyRequestId, he, h]
  refine ⟨htok, hurl, ?_, ?_⟩
  · intro hf
    cases he : task.request_id with
    | none => simp [applyRequestId, he]
    | some r =>
      rw [he] at hf
      have hr : r = "" := by
        simp only [truthy] at hf
        simpa using hf
      simp [applyRequestId, he, hr]
  · intro r he hr
    simp [applyRequestId, he, hr]

/-- Witness for C8's amended claim: without a `request_id` the client is
returned unchanged; with the orchestrator's key `tg_1_2` the header set
gains the `X-Request-Id` entry. -/
theorem createTask_state_effect_witness :
    (createTask (TodoistClient.init "tok") { content := "x" } .timeout).2 =
      TodoistClient.init "tok" ∧
    (createTask (TodoistClient.init "tok") (buildTask 1 2 "Buy milk")
        .timeout).2.headers =
      setHeader (TodoistClient.init "tok").headers "X-Request-Id"
        (makeRequestId 1 2) :=
  ⟨(createTask_state_effect (TodoistClient.init "tok") { content := "x" }
      .timeout).2.2.1 rfl,
   (createTask_state_effect (TodoistClient.init "tok")
      (buildTask 1 2 "Buy milk") .timeout).2.2.2
      (makeRequestId 1 2) rfl (by decide)⟩

/-- C4: the cleanup sweep deletes exactly the identity's failed
attempts (unconditionally) and the identity's attempts older than the
retention; `record_attempt` triggers the sweep only on successful
attempts; hence with one failed and one successful attempt both within
retention, a successful `record_attempt` leaves the failed one gone and
the successful ones present. -/
theorem cleanup_record_spec (log : AttemptLog) (uid days now : Int) :
    (∀ r : AttemptRow, r ∈ cleanupOldAttempts log uid days now false ↔
      (r ∈ log ∧ ¬(r.userId = uid ∧ (r.success = false ∨
        days * 86400 < now - r.time)))) ∧
    (recordAttempt log uid false now false =
      .ok (log ++ [⟨uid, now, false⟩])) ∧
    (recordAttempt log uid true now false =
      .ok (cleanupOldAttempts (log ++ [⟨uid, now, true⟩]) uid 1 now false)) ∧
    (∀ tf ts : Int, now - tf ≤ 86400 → now - ts ≤ 86400 →
      recordAttempt [⟨uid, tf, false⟩, ⟨uid, ts, true⟩] uid true now false =
        .ok [⟨uid, ts, true⟩, ⟨uid, now, true⟩]) := by
  refine ⟨?_, rfl, rfl, ?_⟩
  · intro r
    simp only [cleanupOldAttempts, if_neg Bool.false_ne_true,
      List.mem_filter]
    apply and_congr_right
    intro _
    cases hs : r.success <;>
      (simp [cleanupDeletes, hs]; try omega)
  · intro tf ts htf hts
    have h1 : cleanupDeletes uid 1 now ⟨uid, tf, false⟩ = true := by
      simp [cleanupDeletes]
    have h2 : cleanupDeletes uid 1 now ⟨uid, ts, true⟩ = false := by
      simp [cleanupDeletes]
      omega
    have h3 : cleanupDeletes uid 1 now ⟨uid, now, true⟩ = false := by
      simp [cleanupDeletes]
    simp [recordAttempt, recordTokenAttempt, cleanupOldAttempts,
      List.filter, h1, h2, h3]

/-- Witness for C4's scenario: a failed attempt at time 900 and a
successful one at time 950, both within the 1-day retention of a sweep
at time 1000, and then a successful `record_attempt` at time 1000: the
failed attempt is gone, both successes remain. -/
theorem cleanup_record_spec_witness :
    recordAttempt [⟨7, 900, false⟩, ⟨7, 950, true⟩] 7 true 1000 false =
      .ok [⟨7, 950, true⟩, ⟨7, 1000, true⟩] :=
  (cleanup_record_spec [] 7 1 1000).2.2.2 900 950 (by decide) (by decide)

end Todoist
